import Mathlib

/-!
Shallow embedding of the Paragraph block tool of this repository
(src/unnamed/part_000): an editor plugin class holding a data object
with a text field and an alignment field, a lazily created view element,
and a small set of host-invoked operations (constructor, render, save,
validate, merge, onPaste, tune toggling, data getter and setter).

Modelling conventions:
* A JavaScript object field that may be undefined is an Option.
* A JavaScript argument that may itself be undefined (so that a property
  access on it raises a TypeError) is an Option of the object type, and
  the raising operation returns Except JsError.
* The DOM element is a record of the fields the code touches: innerHTML,
  contentEditable, the keyup listener registration, and the class list.
  Element identity is an id drawn from an allocation counter in the
  state, so that "the same element" is provable.
* window.requestAnimationFrame defers the hydration callback; the state
  records a pending callback and fireAnimationFrame runs it. The callback
  reads the current _data.text at fire time, as the closure does.
* String.trim stands for the JavaScript trim.
-/

namespace Paragraph

/-- A thrown JavaScript error. The only one this code can raise on the
modelled paths is a TypeError from a property access on undefined. -/
inductive JsError
  | typeError
deriving Repr, DecidableEq

/-- JavaScript a || b where a is a possibly-undefined string and b is a
string: undefined and the empty string are falsy. -/
def jsOrStrD : Option String → String → String
  | some s, b => if s = "" then b else s
  | none, b => b

/-- JavaScript a || b where both operands are strings. -/
def strOr (a b : String) : String :=
  if a = "" then b else a

/-- JavaScript + applied to two possibly-undefined strings, as in the
merge method: string concatenation when both are strings; with an
undefined operand the other is concatenated with the text undefined;
undefined + undefined is the number NaN, which the DOM stringifies. -/
def jsPlus : Option String → Option String → String
  | some a, some b => a ++ b
  | some a, none => a ++ "undefined"
  | none, some b => "undefined" ++ b
  | none, none => "NaN"

/-- ParagraphData as a raw JavaScript object: either field may be absent. -/
structure RawData where
  text : Option String
  alignment : Option String
deriving Repr, DecidableEq

/-- ParagraphConfig as a raw JavaScript object: every field may be absent. -/
structure Config where
  placeholder : Option String
  preserveBlank : Option Bool
  defaultAlignment : Option String
deriving Repr, DecidableEq

/-- The view element, restricted to the fields the code reads or writes.
The id gives object identity: drawView allocates a fresh one. -/
structure Element where
  id : Nat
  innerHTML : String
  contentEditable : Bool
  hasKeyupListener : Bool
  classes : List String
deriving Repr, DecidableEq

/-- The instance state of the Paragraph class: the fields the constructor
assigns. The api argument is kept as the two style strings the code reads
from it; the i18n translation of the placeholder is presentation only and
not modelled. nextElemId is the allocator for fresh DOM elements;
pendingHydrate records a scheduled requestAnimationFrame callback. -/
structure ParagraphState where
  readOnly : Bool
  config : Config
  apiStylesBlock : String
  apiSettingsButtonActive : String
  _placeholder : String
  _data : RawData
  _preserveBlank : Bool
  _element : Option Element
  pendingHydrate : Bool
  nextElemId : Nat
deriving Repr, DecidableEq

/-- Static DEFAULT_PLACEHOLDER (line 35). -/
def DEFAULT_PLACEHOLDER : String := ""

/-- Static ALIGNMENTS (lines 45 to 52), as the list of its values. -/
def ALIGNMENTS : List String := ["left", "center", "right", "justify"]

/-- Static DEFAULT_ALIGNMENT (lines 60 to 62). -/
def DEFAULT_ALIGNMENT : String := "left"

/-- The names of the four tune buttons built in the constructor
(lines 104 to 121); the icon fields are presentation only. -/
def tunesNames : List String := ["left", "center", "right", "justify"]

/-- The _CSS.alignment lookup (lines 82 to 87) applied to a possibly
undefined alignment: indexing the map off key yields undefined, which the
DOM class list stringifies. -/
def alignmentClass : Option String → String
  | some "left" => "ce-paragraph--left"
  | some "center" => "ce-paragraph--center"
  | some "right" => "ce-paragraph--right"
  | some "justify" => "ce-paragraph--justify"
  | _ => "undefined"

/-- The hydrate method (lines 348 to 352): schedules a callback that will
write _data.text into the element. -/
def hydrate (s : ParagraphState) : ParagraphState :=
  { s with pendingHydrate := true }

/-- Runs the callback scheduled by hydrate, as the browser does on the
next paint: the element innerHTML becomes this._data.text || the empty
string, read at fire time. The code only schedules it while the element
exists, so the none branch is unreachable in practice. -/
def fireAnimationFrame (s : ParagraphState) : ParagraphState :=
  if s.pendingHydrate then
    match s._element with
    | some e =>
        { s with
          _element := some { e with innerHTML := jsOrStrD s._data.text "" }
          pendingHydrate := false }
    | none => { s with pendingHydrate := false }
  else s

/-- The data setter (lines 337 to 343): this._data = data || the empty
object, then hydrate when the view exists. -/
def setData (s : ParagraphState) (d : Option RawData) : ParagraphState :=
  let s1 := { s with _data := d.getD { text := none, alignment := none } }
  match s1._element with
  | some _ => hydrate s1
  | none => s1

/-- The data getter (lines 319 to 327): when the view exists, sync
_data.text from the element innerHTML first; return _data. The returned
object is the same object as the stored _data. -/
def getData (s : ParagraphState) : ParagraphState × RawData :=
  match s._element with
  | some e =>
      let d := { s._data with text := some e.innerHTML }
      ({ s with _data := d }, d)
  | none => (s, s._data)

/-- The constructor body (lines 73 to 127) once the data and config
arguments are known to be objects. Lines 100 to 103 compute the fallback
data; line 126 then runs this.data = data, the data setter, with the raw
data argument. -/
def constructOk (data : RawData) (config : Config)
    (apiStylesBlock apiSettingsButtonActive : String) (readOnly : Bool) :
    ParagraphState :=
  let s : ParagraphState :=
    { readOnly := readOnly
      config := config
      apiStylesBlock := apiStylesBlock
      apiSettingsButtonActive := apiSettingsButtonActive
      _placeholder := jsOrStrD config.placeholder DEFAULT_PLACEHOLDER
      _data :=
        { text := some (jsOrStrD data.text "")
          alignment := some (jsOrStrD data.alignment
            (jsOrStrD config.defaultAlignment DEFAULT_ALIGNMENT)) }
      _preserveBlank := config.preserveBlank.getD false
      _element := none
      pendingHydrate := false
      nextElemId := 0 }
  setData s (some data)

/-- The constructor (lines 73 to 127) on possibly-undefined data and
config arguments: line 99 reads config.placeholder and line 101 reads
data.text, so an undefined argument raises a TypeError. -/
def construct (data? : Option RawData) (config? : Option Config)
    (apiStylesBlock apiSettingsButtonActive : String) (readOnly : Bool) :
    Except JsError ParagraphState :=
  match config?, data? with
  | none, _ => .error .typeError
  | some _, none => .error .typeError
  | some config, some data =>
      .ok (constructOk data config apiStylesBlock apiSettingsButtonActive readOnly)

/-- drawView (lines 153 to 164): a fresh div, classes from the wrapper,
the api block style and the alignment class of the current _data, dataset
placeholder omitted as presentation; contentEditable false, then true
plus the keyup listener when not read only. -/
def drawView (s : ParagraphState) : ParagraphState × Element :=
  let div : Element :=
    { id := s.nextElemId
      innerHTML := ""
      contentEditable := false
      hasKeyupListener := false
      classes := ["ce-paragraph", s.apiStylesBlock, alignmentClass s._data.alignment] }
  let div :=
    if !s.readOnly then { div with contentEditable := true, hasKeyupListener := true }
    else div
  ({ s with nextElemId := s.nextElemId + 1 }, div)

/-- render (lines 171 to 179): create the element only when it is null,
memoize it, hydrate, return it. -/
def render (s : ParagraphState) : ParagraphState × Element :=
  match s._element with
  | none =>
      let p := drawView s
      let s2 := hydrate { p.1 with _element := some p.2 }
      (s2, p.2)
  | some e => (hydrate s, e)

/-- merge (lines 188 to 195): new text is this.data.text + data.text, new
alignment is this.data.alignment, stored through the data setter. The two
getter reads are idempotent, so one getData models both. -/
def merge (s : ParagraphState) (data : RawData) : ParagraphState :=
  let p := getData s
  let newData : RawData :=
    { text := some (jsPlus p.2.text data.text)
      alignment := p.2.alignment }
  setData p.1 (some newData)

/-- validate (lines 205 to 211): savedData.text.trim() raises a TypeError
when the text field is absent; otherwise false exactly when the trimmed
text is empty and _preserveBlank is false. -/
def validate (s : ParagraphState) (savedData : RawData) : Except JsError Bool :=
  match savedData.text with
  | none => .error .typeError
  | some t => .ok (!(t.trim == "" && !s._preserveBlank))

/-- _toggleTune (lines 247 to 253): when this.data.alignment strictly
equals the tune name, reset to config.defaultAlignment; otherwise set the
tune name. The assignment goes through the getter-returned object, which
is the stored _data itself, so no setter (and no hydrate) runs. -/
def toggleTune (s : ParagraphState) (tune : String) : ParagraphState :=
  let p := getData s
  if p.2.alignment = some tune then
    { p.1 with _data := { p.1._data with alignment := s.config.defaultAlignment } }
  else
    { p.1 with _data := { p.1._data with alignment := some tune } }

/-- Adds or removes a class, as DOMTokenList.toggle with a force flag. -/
def setClass (cs : List String) (c : String) (force : Bool) : List String :=
  if force then (if c ∈ cs then cs else cs ++ [c])
  else cs.filter (fun x => x ≠ c)

/-- The click listener of a tune button from renderSettings (lines 228 to
235): _toggleTune with the button name, then for every tune name the view
element alignment class is toggled on exactly when it is the new
this.data.alignment. Toggling of the settings-button active classes is on
separate panel nodes and not modelled. When the view element is null the
listener raises after the toggle, so the data change survives. -/
def clickTune (s : ParagraphState) (tune : String) : ParagraphState :=
  let s1 := toggleTune s tune
  match s1._element with
  | none => s1
  | some e =>
      let p := getData s1
      let cls := tunesNames.foldl
        (fun acc n => setClass acc (alignmentClass (some n)) (p.2.alignment == some n))
        e.classes
      { p.1 with _element := some { e with classes := cls } }

/-- save (lines 262 to 267): text from the passed element innerHTML,
alignment from this.data.alignment (one getter read). -/
def save (s : ParagraphState) (toolsContent : Element) : ParagraphState × RawData :=
  let p := getData s
  (p.1, { text := some toolsContent.innerHTML, alignment := p.2.alignment })

/-- The pasted element as onPaste reads it: event.detail.data.innerHTML
and event.detail.data.style.textAlign, the latter the empty string when
no inline style is set. -/
structure PastedElement where
  innerHTML : String
  styleTextAlign : String
deriving Repr, DecidableEq

/-- onPaste (lines 274 to 281): replace the data wholesale through the
setter; alignment is textAlign || config.defaultAlignment ||
DEFAULT_ALIGNMENT. -/
def onPaste (s : ParagraphState) (pasted : PastedElement) : ParagraphState :=
  setData s (some
    { text := some pasted.innerHTML
      alignment := some (strOr pasted.styleTextAlign
        (jsOrStrD s.config.defaultAlignment DEFAULT_ALIGNMENT)) })

/-- The empty JavaScript object as data. -/
def emptyData : RawData := { text := none, alignment := none }

/-- The empty JavaScript object as config. -/
def emptyConfig : Config :=
  { placeholder := none, preserveBlank := none, defaultAlignment := none }

/-- A sample constructed instance (no view yet) used to instantiate
theorems at concrete inputs. -/
def sampleState : ParagraphState :=
  constructOk { text := some "A", alignment := some "center" }
    { placeholder := none, preserveBlank := none, defaultAlignment := some "right" }
    "cdx-block" "cdx-settings-button--active" false

/-! ## Claim theorems -/

/-- Claim C1. The claim states that constructing with data lacking both
fields and config lacking defaultAlignment leaves the instance data equal
to text empty string and alignment left. The code computes exactly that
fallback on lines 100 to 103, but line 126 (this.data = data) runs the
data setter with the raw data argument, overwriting the fallback: the
stored data is the raw empty object, both fields absent. This theorem
evaluates the constructor at that failing input. -/
theorem c1_constructor_overwrites_fallback :
    (Paragraph.constructOk Paragraph.emptyData Paragraph.emptyConfig
      "cdx-block" "cdx-settings-button--active" false)._data = Paragraph.emptyData
    ∧ (Paragraph.constructOk Paragraph.emptyData Paragraph.emptyConfig
      "cdx-block" "cdx-settings-button--active" false)._data
        ≠ { text := some "", alignment := some "left" } := by
  constructor
  · rfl
  · decide

/-- Claim C2. The claim states that after any sequence of host-invoked
operations the alignment is always one of the four enumerated values.
It fails already at construction: with data and config empty objects,
line 126 stores the raw data, so the alignment field is absent, which is
none of the four values. -/
theorem c2_alignment_invariant_fails_at_construction :
    (Paragraph.constructOk Paragraph.emptyData Paragraph.emptyConfig
      "cdx-block" "cdx-settings-button--active" false)._data.alignment = none
    ∧ ∀ a ∈ Paragraph.ALIGNMENTS,
        (Paragraph.constructOk Paragraph.emptyData Paragraph.emptyConfig
          "cdx-block" "cdx-settings-button--active" false)._data.alignment ≠ some a := by
  constructor
  · rfl
  · decide

/-- Claim C3. Clicking the tune button for a name in the tunes list sets
the alignment to that name when the current alignment differs from it,
and resets the alignment to config.defaultAlignment when the current
alignment equals it. -/
theorem c3_click_tune_toggles (s : Paragraph.ParagraphState) (a : String)
    (_ha : a ∈ Paragraph.tunesNames) :
    (Paragraph.clickTune s a)._data.alignment =
      (if s._data.alignment = some a then s.config.defaultAlignment else some a) := by
  unfold Paragraph.clickTune Paragraph.toggleTune Paragraph.getData
  cases he : s._element with
  | none =>
      simp only [he]
      by_cases hc : s._data.alignment = some a <;> simp [hc]
  | some e =>
      simp only [he]
      by_cases hc : s._data.alignment = some a <;> simp [hc]

/-- Witness for C3: a concrete click on the center tune of a freshly
constructed block with data alignment center and a configured default of
right resets the alignment to right. -/
theorem c3_click_tune_toggles_witness :
    ("center" ∈ Paragraph.tunesNames)
    ∧ (Paragraph.clickTune
        (Paragraph.constructOk { text := some "A", alignment := some "center" }
          { placeholder := none, preserveBlank := none, defaultAlignment := some "right" }
          "cdx-block" "cdx-settings-button--active" false)
        "center")._data.alignment =
      (if (Paragraph.constructOk { text := some "A", alignment := some "center" }
          { placeholder := none, preserveBlank := none, defaultAlignment := some "right" }
          "cdx-block" "cdx-settings-button--active" false)._data.alignment = some "center"
        then ({ placeholder := none, preserveBlank := none,
                defaultAlignment := some "right" } : Paragraph.Config).defaultAlignment
        else some "center") :=
  ⟨by decide,
   c3_click_tune_toggles
     (Paragraph.constructOk { text := some "A", alignment := some "center" }
       { placeholder := none, preserveBlank := none, defaultAlignment := some "right" }
       "cdx-block" "cdx-settings-button--active" false)
     "center" (by decide)⟩

/-- Claim C4. For saved data whose text field is a string, validate of a
constructed instance returns a boolean, and it returns false exactly when
the trimmed text is empty and the preserveBlank configuration flag is not
set, an absent preserveBlank counting as false (line 124). -/
theorem c4_validate_false_iff (d0 : Paragraph.RawData) (c : Paragraph.Config)
    (b act : String) (ro : Bool) (d : Paragraph.RawData) (t : String)
    (ht : d.text = some t) :
    (∃ bv, Paragraph.validate (Paragraph.constructOk d0 c b act ro) d = Except.ok bv)
    ∧ (Paragraph.validate (Paragraph.constructOk d0 c b act ro) d = Except.ok false ↔
        (t.trim = "" ∧ c.preserveBlank.getD false = false)) := by
  have hpb : (Paragraph.constructOk d0 c b act ro)._preserveBlank
      = c.preserveBlank.getD false := rfl
  constructor
  · exact ⟨!(t.trim == "" && !((Paragraph.constructOk d0 c b act ro)._preserveBlank)),
      by simp [Paragraph.validate, ht]⟩
  · simp only [Paragraph.validate, ht, hpb]
    constructor
    · intro h
      have h' := Except.ok.inj h
      constructor
      · by_contra htr
        simp [htr] at h'
      · by_contra hc
        have : c.preserveBlank.getD false = true := by
          cases hcv : c.preserveBlank.getD false
          · exact absurd hcv hc
          · rfl
        simp [this] at h'
    · intro ⟨h1, h2⟩
      simp [h1, h2]

/-- Witness for C4: saved data with whitespace-only text, against a block
constructed with an empty config, is rejected. -/
theorem c4_validate_false_iff_witness :
    (({ text := some "   ", alignment := none } : Paragraph.RawData).text = some "   ")
    ∧ ((∃ bv, Paragraph.validate
          (Paragraph.constructOk Paragraph.emptyData Paragraph.emptyConfig
            "cdx-block" "cdx-settings-button--active" false)
          { text := some "   ", alignment := none } = Except.ok bv)
       ∧ (Paragraph.validate
            (Paragraph.constructOk Paragraph.emptyData Paragraph.emptyConfig
              "cdx-block" "cdx-settings-button--active" false)
            { text := some "   ", alignment := none } = Except.ok false ↔
          ("   ".trim = "" ∧ Paragraph.emptyConfig.preserveBlank.getD false = false))) :=
  ⟨rfl,
   c4_validate_false_iff Paragraph.emptyData Paragraph.emptyConfig
     "cdx-block" "cdx-settings-button--active" false
     { text := some "   ", alignment := none } "   " rfl⟩

/-- Claim C5. merge sets the receiving block text to the concatenation of
the receiving text (as the data getter reads it, from the live element
when one exists) with the incoming text, and leaves the receiving
alignment unchanged, whenever both texts are strings. -/
theorem c5_merge_concatenates (s : Paragraph.ParagraphState)
    (incoming : Paragraph.RawData) (tA tB : String)
    (hA : (Paragraph.getData s).2.text = some tA) (hB : incoming.text = some tB) :
    (Paragraph.merge s incoming)._data.text = some (tA ++ tB)
    ∧ (Paragraph.merge s incoming)._data.alignment = s._data.alignment := by
  cases he : s._element with
  | none =>
      simp only [Paragraph.getData, he] at hA
      simp [Paragraph.merge, Paragraph.getData, Paragraph.setData, Paragraph.hydrate,
        he, hA, hB, Paragraph.jsPlus]
  | some e =>
      simp only [Paragraph.getData, he] at hA
      simp [Paragraph.merge, Paragraph.getData, Paragraph.setData, Paragraph.hydrate,
        he, hA, hB, Paragraph.jsPlus]

/-- Witness for C5: merging text B into a block holding text A and
alignment center yields text AB with alignment center kept, matching the
example of the spec. -/
theorem c5_merge_concatenates_witness :
    ((Paragraph.getData Paragraph.sampleState).2.text = some "A")
    ∧ (({ text := some "B", alignment := none } : Paragraph.RawData).text = some "B")
    ∧ ((Paragraph.merge Paragraph.sampleState { text := some "B", alignment := none })._data.text
        = some ("A" ++ "B")
       ∧ (Paragraph.merge Paragraph.sampleState
            { text := some "B", alignment := none })._data.alignment
          = Paragraph.sampleState._data.alignment) :=
  ⟨rfl, rfl,
   c5_merge_concatenates Paragraph.sampleState { text := some "B", alignment := none }
     "A" "B" rfl rfl⟩

/-- Claim C6. onPaste replaces the data wholesale: the new text is the
pasted element innerHTML; the new alignment is the inline textAlign when
non-empty, else the configured default when that is set to a non-empty
value, else left. -/
theorem c6_onPaste_fallback (s : Paragraph.ParagraphState) (p : Paragraph.PastedElement) :
    (Paragraph.onPaste s p)._data.text = some p.innerHTML
    ∧ (p.styleTextAlign ≠ "" →
        (Paragraph.onPaste s p)._data.alignment = some p.styleTextAlign)
    ∧ (p.styleTextAlign = "" → ∀ dft, s.config.defaultAlignment = some dft → dft ≠ "" →
        (Paragraph.onPaste s p)._data.alignment = some dft)
    ∧ (p.styleTextAlign = "" → s.config.defaultAlignment = none →
        (Paragraph.onPaste s p)._data.alignment = some Paragraph.DEFAULT_ALIGNMENT) := by
  refine ⟨?_, ?_, ?_, ?_⟩
  · cases he : s._element <;>
      simp [Paragraph.onPaste, Paragraph.setData, Paragraph.hydrate, he]
  · intro hta
    cases he : s._element <;>
      simp [Paragraph.onPaste, Paragraph.setData, Paragraph.hydrate, Paragraph.strOr, he, hta]
  · intro hta dft hdft hne
    cases he : s._element <;>
      simp [Paragraph.onPaste, Paragraph.setData, Paragraph.hydrate, Paragraph.strOr,
        Paragraph.jsOrStrD, he, hta, hdft, hne]
  · intro hta hdft
    cases he : s._element <;>
      simp [Paragraph.onPaste, Paragraph.setData, Paragraph.hydrate, Paragraph.strOr,
        Paragraph.jsOrStrD, he, hta, hdft]

/-- Witness for C6: pasting a div with inline style text-align right and
inner HTML hi yields text hi with alignment right, matching the example
of the spec. -/
theorem c6_onPaste_fallback_witness :
    ((Paragraph.onPaste Paragraph.sampleState
        { innerHTML := "hi", styleTextAlign := "right" })._data.text = some "hi")
    ∧ (("right" : String) ≠ "")
    ∧ ((Paragraph.onPaste Paragraph.sampleState
        { innerHTML := "hi", styleTextAlign := "right" })._data.alignment = some "right") :=
  ⟨(c6_onPaste_fallback Paragraph.sampleState
      { innerHTML := "hi", styleTextAlign := "right" }).1,
   by decide,
   (c6_onPaste_fallback Paragraph.sampleState
      { innerHTML := "hi", styleTextAlign := "right" }).2.1 (by decide)⟩

/-- Claim C7. Round trip: construct, render, let the scheduled hydration
callback fire (no user edit happens in between), then save the rendered
element: the saved text equals the constructed text and the saved
alignment equals the constructed alignment, for every data whose text
field is a string. -/
theorem c7_save_render_roundtrip (d : Paragraph.RawData) (c : Paragraph.Config)
    (b act : String) (ro : Bool) (t : String) (ht : d.text = some t)
    (e2 : Paragraph.Element)
    (he : (Paragraph.fireAnimationFrame
            (Paragraph.render (Paragraph.constructOk d c b act ro)).1)._element = some e2) :
    (Paragraph.save
        (Paragraph.fireAnimationFrame
          (Paragraph.render (Paragraph.constructOk d c b act ro)).1) e2).2.text = some t
    ∧ (Paragraph.save
        (Paragraph.fireAnimationFrame
          (Paragraph.render (Paragraph.constructOk d c b act ro)).1) e2).2.alignment
      = d.alignment := by
  by_cases h0 : t = ""
  · subst h0
    simp [Paragraph.constructOk, Paragraph.setData, Paragraph.render, Paragraph.drawView,
      Paragraph.hydrate, Paragraph.fireAnimationFrame, Paragraph.save, Paragraph.getData,
      Paragraph.jsOrStrD, ht] at he ⊢
    simp [← he]
  · simp [Paragraph.constructOk, Paragraph.setData, Paragraph.render, Paragraph.drawView,
      Paragraph.hydrate, Paragraph.fireAnimationFrame, Paragraph.save, Paragraph.getData,
      Paragraph.jsOrStrD, ht, h0] at he ⊢
    simp [← he]

/-- Witness for C7: the sample block round trips its text A and its
alignment center through render, hydration and save. -/
theorem c7_save_render_roundtrip_witness :
    (({ text := some "A", alignment := some "center" } : Paragraph.RawData).text = some "A")
    ∧ ((Paragraph.fireAnimationFrame
          (Paragraph.render Paragraph.sampleState).1)._element
        = some ((Paragraph.fireAnimationFrame
            (Paragraph.render Paragraph.sampleState).1)._element.getD
              (Paragraph.render Paragraph.sampleState).2))
    ∧ ((Paragraph.save (Paragraph.fireAnimationFrame (Paragraph.render Paragraph.sampleState).1)
          ((Paragraph.fireAnimationFrame
            (Paragraph.render Paragraph.sampleState).1)._element.getD
              (Paragraph.render Paragraph.sampleState).2)).2.text = some "A"
       ∧ (Paragraph.save (Paragraph.fireAnimationFrame (Paragraph.render Paragraph.sampleState).1)
          ((Paragraph.fireAnimationFrame
            (Paragraph.render Paragraph.sampleState).1)._element.getD
              (Paragraph.render Paragraph.sampleState).2)).2.alignment
         = ({ text := some "A", alignment := some "center" } : Paragraph.RawData).alignment) :=
  ⟨rfl, rfl,
   c7_save_render_roundtrip { text := some "A", alignment := some "center" }
     { placeholder := none, preserveBlank := none, defaultAlignment := some "right" }
     "cdx-block" "cdx-settings-button--active" false "A" rfl _ rfl⟩

/-- Claim C8. render is idempotent on element creation: the first render
of a constructed instance allocates exactly one element and stores it;
and for every state whose element already exists, render returns exactly
the stored element and allocates nothing. -/
theorem c8_render_memoizes (d : Paragraph.RawData) (c : Paragraph.Config)
    (b act : String) (ro : Bool) :
    ((Paragraph.render (Paragraph.constructOk d c b act ro)).1._element
        = some (Paragraph.render (Paragraph.constructOk d c b act ro)).2
     ∧ (Paragraph.render (Paragraph.constructOk d c b act ro)).1.nextElemId
        = (Paragraph.constructOk d c b act ro).nextElemId + 1)
    ∧ ∀ (s1 : Paragraph.ParagraphState) (e : Paragraph.Element),
        s1._element = some e →
          (Paragraph.render s1).2 = e
          ∧ (Paragraph.render s1).1._element = some e
          ∧ (Paragraph.render s1).1.nextElemId = s1.nextElemId := by
  constructor
  · constructor <;>
      simp [Paragraph.render, Paragraph.constructOk, Paragraph.setData,
        Paragraph.drawView, Paragraph.hydrate]
  · intro s1 e h1
    simp [Paragraph.render, h1, Paragraph.hydrate]

/-- Witness for C8: rendering the sample block twice returns the same
element the second time without allocating a new one. -/
theorem c8_render_memoizes_witness :
    ((Paragraph.render Paragraph.sampleState).1._element
        = some (Paragraph.render Paragraph.sampleState).2)
    ∧ ((Paragraph.render (Paragraph.render Paragraph.sampleState).1).2
        = (Paragraph.render Paragraph.sampleState).2
       ∧ (Paragraph.render (Paragraph.render Paragraph.sampleState).1).1._element
          = some (Paragraph.render Paragraph.sampleState).2
       ∧ (Paragraph.render (Paragraph.render Paragraph.sampleState).1).1.nextElemId
          = (Paragraph.render Paragraph.sampleState).1.nextElemId) :=
  ⟨rfl,
   (c8_render_memoizes { text := some "A", alignment := some "center" }
      { placeholder := none, preserveBlank := none, defaultAlignment := some "right" }
      "cdx-block" "cdx-settings-button--active" false).2
     (Paragraph.render Paragraph.sampleState).1
     (Paragraph.render Paragraph.sampleState).2 rfl⟩

/-- Counterexample to claim C9 as stated: validate raises a TypeError on
saved data whose text field is absent, because line 206 calls trim on an
undefined property; so not every operation accepts missing data fields
permissively. -/
theorem c9_validate_raises_on_missing_text :
    Paragraph.validate Paragraph.sampleState { text := none, alignment := some "left" }
      = Except.error Paragraph.JsError.typeError := rfl

/-- Claim C9, amended. Construction on object-valued data and config
arguments never raises, whatever fields are missing; validate returns a
boolean whenever the text field is a string; but validate raises a
TypeError when the text field is missing. (merge, onPaste, the setter and
the tune toggle are total functions of the embedding, raising nothing.) -/
theorem c9_no_exception_except_validate_missing_text :
    (∀ (d : Paragraph.RawData) (c : Paragraph.Config) (b act : String) (ro : Bool),
       Paragraph.construct (some d) (some c) b act ro
         = Except.ok (Paragraph.constructOk d c b act ro))
    ∧ (∀ (s : Paragraph.ParagraphState) (d : Paragraph.RawData) (t : String),
         d.text = some t → ∃ bv, Paragraph.validate s d = Except.ok bv)
    ∧ (∀ (s : Paragraph.ParagraphState) (d : Paragraph.RawData),
         d.text = none → Paragraph.validate s d = Except.error Paragraph.JsError.typeError) := by
  refine ⟨fun d c b act ro => rfl, fun s d t ht => ?_, fun s d hd => ?_⟩
  · exact ⟨!(t.trim == "" && !s._preserveBlank), by simp [Paragraph.validate, ht]⟩
  · simp [Paragraph.validate, hd]

/-- Witness for the amended C9: a concrete construction succeeds, a
concrete validate on string text returns a boolean, and a concrete
validate on missing text raises. -/
theorem c9_no_exception_witness :
    (Paragraph.construct (some Paragraph.emptyData) (some Paragraph.emptyConfig)
        "cdx-block" "cdx-settings-button--active" false
      = Except.ok (Paragraph.constructOk Paragraph.emptyData Paragraph.emptyConfig
        "cdx-block" "cdx-settings-button--active" false))
    ∧ (({ text := some " ", alignment := none } : Paragraph.RawData).text = some " ")
    ∧ (∃ bv, Paragraph.validate Paragraph.sampleState
        { text := some " ", alignment := none } = Except.ok bv)
    ∧ (Paragraph.emptyData.text = none)
    ∧ (Paragraph.validate Paragraph.sampleState Paragraph.emptyData
        = Except.error Paragraph.JsError.typeError) :=
  ⟨c9_no_exception_except_validate_missing_text.1 Paragraph.emptyData Paragraph.emptyConfig
     "cdx-block" "cdx-settings-button--active" false,
   rfl,
   c9_no_exception_except_validate_missing_text.2.1 Paragraph.sampleState
     { text := some " ", alignment := none } " " rfl,
   rfl,
   c9_no_exception_except_validate_missing_text.2.2 Paragraph.sampleState
     Paragraph.emptyData rfl⟩

/-- Claim C10. The element produced by the first render of a constructed
instance is contentEditable exactly when the instance is not read only,
and carries the keyup listener exactly when it is not read only; with no
listener attached, onKeyUp can never fire. -/
theorem c10_readonly_view (d : Paragraph.RawData) (c : Paragraph.Config)
    (b act : String) (ro : Bool) :
    (Paragraph.render (Paragraph.constructOk d c b act ro)).2.contentEditable = !ro
    ∧ (Paragraph.render (Paragraph.constructOk d c b act ro)).2.hasKeyupListener = !ro := by
  cases ro <;>
    simp [Paragraph.render, Paragraph.constructOk, Paragraph.setData,
      Paragraph.drawView, Paragraph.hydrate]

end Paragraph
